import Mathlib

/-!
Verification of the hub message-routing and attachment state machine of
`pylgbst/hub.py` (class `Hub` and its specialization `MoveHub`).

The embedding is shallow: the mutable `Hub` object becomes an explicit
`HubState` record, each handler method becomes a state-transforming
function, and the Python `assert`/`KeyError` failure paths become
`Except HubError` results.  Byte strings become `List Nat`, the
`dict[int, Peripheral]` becomes an association list with unique keys,
and the size-1 `queue.Queue` of sync replies becomes a list to which
`put` appends and from which `get` takes the head.

`pylgbst/messages.py`, `pylgbst/peripherals.py` and `pylgbst/utilities.py`
are not part of the sources; the pieces of them that `hub.py` touches
(message field shapes, `needs_reply`/`is_reply`, the `DEV_*`/`EVENT_*`/
action constants, `usbyte`/`ushort`) are modelled from the spec, as
marked on each such definition.
-/

namespace Pylgbst

/-! ## Constants of the wire protocol

Modelled from the spec: these are the `MsgHubAttachedIO.EVENT_*`,
`MsgHubAttachedIO.DEV_*` and `MsgHubAction.*` constants of
`pylgbst/messages.py`, which is not among the sources.  Only their
distinctness matters to the claims. -/

def EVENT_DETACHED : Nat := 0x00
def EVENT_ATTACHED : Nat := 0x01
def EVENT_ATTACHED_VIRTUAL : Nat := 0x02

def DEV_MOTOR : Nat := 0x01
def DEV_VOLTAGE : Nat := 0x14
def DEV_CURRENT : Nat := 0x15
def DEV_RGB_LIGHT : Nat := 0x17
def DEV_TILT_EXTERNAL : Nat := 0x22
def DEV_VISION_SENSOR : Nat := 0x25
def DEV_MOTOR_EXTERNAL_TACHO : Nat := 0x26
def DEV_MOTOR_INTERNAL_TACHO : Nat := 0x27
def DEV_TILT_INTERNAL : Nat := 0x28

def ACTION_UPSTREAM_SHUTDOWN : Nat := 0x30
def ACTION_UPSTREAM_DISCONNECT : Nat := 0x31

/-- Modelled from the spec: `usbyte` of `pylgbst/utilities.py` reads one
unsigned byte of a payload at the given offset. -/
def usbyte (data : List Nat) (index : Nat) : Nat := data.getD index 0

/-- Modelled from the spec: `ushort` of `pylgbst/utilities.py` reads a
little-endian unsigned 16-bit value at the given offset. -/
def ushort (data : List Nat) (index : Nat) : Nat :=
  usbyte data index + 256 * usbyte data (index + 1)

/-! ## Peripherals and the peripheral registry -/

/-- The concrete peripheral classes of `pylgbst/peripherals.py`, reduced to
tags: `hub.py` only ever constructs them and compares their exact type
(`type(...) == VisionSensor`, `type(...) == EncodedMotor`).  `generic` is
the base class `Peripheral` used as the fallback. -/
inductive PeripheralKind where
  | motor
  | encodedMotor
  | visionSensor
  | ledRGB
  | tiltSensor
  | currentSensor
  | voltageSensor
  | generic
  deriving DecidableEq, Repr

/-- A constructed peripheral: `Peripheral(self, port)` of the source, with
the back-reference to the hub omitted (it carries no information in the
embedding) and the `virtual_ports` attribute set by the attach-virtual
branch of `Hub._handle_device_change`. -/
structure Peripheral where
  kind : PeripheralKind
  port : Nat
  virtual_ports : Option (Nat × Nat) := none
  deriving DecidableEq, Repr

/-- The `PERIPHERAL_TYPES` dict of `hub.py` lines 12-22, as an association
list from device-type code to constructed class. -/
def PERIPHERAL_TYPES : List (Nat × PeripheralKind) :=
  [(DEV_MOTOR, PeripheralKind.motor),
   (DEV_MOTOR_EXTERNAL_TACHO, PeripheralKind.encodedMotor),
   (DEV_MOTOR_INTERNAL_TACHO, PeripheralKind.encodedMotor),
   (DEV_VISION_SENSOR, PeripheralKind.visionSensor),
   (DEV_RGB_LIGHT, PeripheralKind.ledRGB),
   (DEV_TILT_EXTERNAL, PeripheralKind.tiltSensor),
   (DEV_TILT_INTERNAL, PeripheralKind.tiltSensor),
   (DEV_CURRENT, PeripheralKind.currentSensor),
   (DEV_VOLTAGE, PeripheralKind.voltageSensor)]

/-! ## Association lists with Python `dict` semantics

`self.peripherals` is a `dict[int, Peripheral]`.  We embed it as a list of
key-value pairs whose keys stay unique: `ainsert` is `d[k] = v`
(replace in place or append), `aerase` is `d.pop(k)`, `alookup` is `d[k]`
returning `none` on a missing key, `aupdate` rewrites the value at a key. -/

def alookup {β : Type} (p : Nat) : List (Nat × β) → Option β
  | [] => none
  | (q, v) :: rest => if q = p then some v else alookup p rest

def ainsert {β : Type} (p : Nat) (v : β) : List (Nat × β) → List (Nat × β)
  | [] => [(p, v)]
  | (q, w) :: rest => if q = p then (p, v) :: rest else (q, w) :: ainsert p v rest

def aerase {β : Type} (p : Nat) : List (Nat × β) → List (Nat × β)
  | [] => []
  | (q, w) :: rest => if q = p then rest else (q, w) :: aerase p rest

def aupdate {β : Type} (p : Nat) (f : β → β) : List (Nat × β) → List (Nat × β)
  | [] => []
  | (q, w) :: rest => if q = p then (q, f w) :: aupdate p f rest else (q, w) :: aupdate p f rest

def keys {β : Type} (m : List (Nat × β)) : List Nat := m.map Prod.fst


/-! ## Messages -/

/-- The decoded upstream message variants that `Hub`'s handler table
distinguishes (`hub.py` lines 39-43): `MsgHubAttachedIO` (here
`hubAttached`, carrying `port`, `event` and `payload`),
`MsgPortValueSingle`, `MsgPortValueCombined`, `MsgGenericError` (reduced
to the text returned by its `message()` method), `MsgHubAction`, plus the
reply-only variants `MsgHubProperties` and `MsgHubAlert` for which no
handler is registered.  Field layouts are modelled from the spec since
`pylgbst/messages.py` is not among the sources. -/
inductive UpstreamMsg where
  | hubAttached (port : Nat) (event : Nat) (payload : List Nat)
  | portValueSingle (port : Nat) (payload : List Nat)
  | portValueCombined (port : Nat) (payload : List Nat)
  | genericError (text : String)
  | hubAction (action : Nat)
  | hubProperties (property : Nat) (payload : List Nat)
  | hubAlert (alert : Nat) (payload : List Nat)
  deriving DecidableEq, Repr

/-- Modelled from the spec: a `DownstreamMsg` of `pylgbst/messages.py`
(not among the sources) as `Hub.send` consumes it: its `needs_reply`
flag, its `is_reply` correlation predicate, and the byte encoding
produced by its `bytes()` method (the codec is external). -/
structure DownstreamMsg where
  needs_reply : Bool
  is_reply : UpstreamMsg → Bool
  bytes : List Nat

/-- Holds exactly on the `MsgGenericError` variant, as tested by
`isinstance(resp, MsgGenericError)` in `Hub.send`. -/
def isGenericError : UpstreamMsg → Bool
  | UpstreamMsg.genericError _ => true
  | _ => false

/-! ## Hub state -/

/-- One entry of the `log.warning` stream that `hub.py` emits, kept as an
observable trace: the unknown-peripheral warning of
`_handle_device_change`, the no-device warning of `_handle_sensor_data`,
the command-error line of `_handle_error`, and the two `_handle_action`
warnings. -/
inductive LogEvent where
  | unknownPeripheral (devType : Nat) (port : Nat)
  | noDevice (port : Nat)
  | commandError (text : String)
  | hubDisconnects
  | hubSwitchesOff
  deriving DecidableEq, Repr

/-- The fatal failure paths of the handlers: the `KeyError` raised by
`self.peripherals[msg.port]` / `.pop(msg.port)` on an untracked port, and
the `assert` on an unexpected attach event code. -/
inductive HubError where
  | keyError (port : Nat)
  | assertionError
  deriving DecidableEq, Repr

/-- The mutable state of a `Hub` object (`Hub.__init__`, lines 32-49):
`peripherals` is the port dictionary, `sync_request` the single pending
request slot, `sync_replies` the contents of the size-1 reply queue.
`writes` records every byte string passed to `connection.write`,
`warnings` the warning log, `port_data` every `queue_port_data` delivery
to a peripheral, and `connected` whether `connection.disconnect` has not
been called.  The handler table is fixed at construction and therefore
embedded directly in `dispatch`. -/
structure HubState where
  peripherals : List (Nat × Peripheral)
  sync_request : Option DownstreamMsg
  sync_replies : List UpstreamMsg
  writes : List (List Nat)
  warnings : List LogEvent
  port_data : List (Nat × UpstreamMsg)
  connected : Bool

/-- The state right after `Hub.__init__`: everything empty, connection up. -/
def initialState : HubState :=
  { peripherals := []
    sync_request := none
    sync_replies := []
    writes := []
    warnings := []
    port_data := []
    connected := true }

/-! ## The handlers (lines 109-160 of `hub.py`) -/

/-- The assignment `self.peripherals[port].virtual_ports = (usbyte(msg.payload, 2),
usbyte(msg.payload, 3))` of `_handle_device_change` (line 151), as a
function on the stored peripheral. -/
def set_virtual (payload : List Nat) (d : Peripheral) : Peripheral :=
  { d with virtual_ports := some (usbyte payload 2, usbyte payload 3) }

/-- Embeds `Hub._handle_device_change` (lines 127-151).  On a detach event the
source first evaluates `self.peripherals[msg.port]` (inside the
`log.debug` argument list) and then `self.peripherals.pop(msg.port)`,
both of which raise `KeyError` when the port is untracked.  On an attach
event it looks the device type (`ushort(msg.payload, 0)`) up in
`PERIPHERAL_TYPES`, installing the mapped class or the generic
`Peripheral` fallback with a warning, and on a virtual attach it
additionally sets `virtual_ports` from payload bytes 2 and 3. -/
def handle_device_change (s : HubState) (port event : Nat) (payload : List Nat) :
    Except HubError HubState :=
  if event = EVENT_DETACHED then
    match alookup port s.peripherals with
    | none => Except.error (HubError.keyError port)
    | some _ => Except.ok { s with peripherals := aerase port s.peripherals }
  else if event = EVENT_ATTACHED ∨ event = EVENT_ATTACHED_VIRTUAL then
    let dev_type := ushort payload 0
    let s1 :=
      match alookup dev_type PERIPHERAL_TYPES with
      | some k =>
        { s with peripherals :=
            ainsert port { kind := k, port := port, virtual_ports := none } s.peripherals }
      | none =>
        let d : Peripheral := { kind := PeripheralKind.generic, port := port, virtual_ports := none }
        { s with peripherals := ainsert port d s.peripherals,
                 warnings := s.warnings ++ [LogEvent.unknownPeripheral dev_type port] }
    if event = EVENT_ATTACHED_VIRTUAL then
      Except.ok { s1 with peripherals := aupdate port (set_virtual payload) s1.peripherals }
    else Except.ok s1
  else Except.error HubError.assertionError

/-- Embeds `Hub._handle_sensor_data` (lines 153-160): warn and drop when the port
has no device, otherwise forward the message to the owning peripheral
(recorded in the `port_data` trace). -/
def handle_sensor_data (s : HubState) (port : Nat) (m : UpstreamMsg) : HubState :=
  match alookup port s.peripherals with
  | none => { s with warnings := s.warnings ++ [LogEvent.noDevice port] }
  | some _ => { s with port_data := s.port_data ++ [(port, m)] }

/-- Embeds `Hub._handle_error` (lines 109-114): always log the command error;
then, if a request is pending, clear it and deliver the error message to
the blocked sender through the reply queue. -/
def handle_error (s : HubState) (text : String) : HubState :=
  let s1 := { s with warnings := s.warnings ++ [LogEvent.commandError text] }
  match s1.sync_request with
  | some _ =>
    { s1 with sync_request := none,
              sync_replies := s1.sync_replies ++ [UpstreamMsg.genericError text] }
  | none => s1

/-- Embeds `Hub._handle_action` (lines 116-125): tear the connection down on an
upstream disconnect or shutdown action. -/
def handle_action (s : HubState) (action : Nat) : HubState :=
  if action = ACTION_UPSTREAM_DISCONNECT then
    { s with warnings := s.warnings ++ [LogEvent.hubDisconnects], connected := false }
  else if action = ACTION_UPSTREAM_SHUTDOWN then
    { s with warnings := s.warnings ++ [LogEvent.hubSwitchesOff], connected := false }
  else s

/-! ## Notification processing (`Hub._notify`, lines 81-96) -/

/-- The sync-correlation step of `Hub._notify` (lines 86-91): under the
lock, if a request is pending and the decoded message is its reply, put
the message into the reply queue and clear the pending request. -/
def correlate (s : HubState) (m : UpstreamMsg) : HubState :=
  match s.sync_request with
  | none => s
  | some req =>
    if req.is_reply m then
      { s with sync_replies := s.sync_replies ++ [m], sync_request := none }
    else s

/-- The handler-dispatch loop of `Hub._notify` (lines 93-96) over the
handler table registered in `Hub.__init__` (lines 39-43).  Each decoded
variant is an instance of exactly one registered message class, so the
loop runs at most one handler. -/
def dispatch (s : HubState) (m : UpstreamMsg) : Except HubError HubState :=
  match m with
  | UpstreamMsg.hubAttached port event payload => handle_device_change s port event payload
  | UpstreamMsg.portValueSingle port payload =>
      Except.ok (handle_sensor_data s port (UpstreamMsg.portValueSingle port payload))
  | UpstreamMsg.portValueCombined port payload =>
      Except.ok (handle_sensor_data s port (UpstreamMsg.portValueCombined port payload))
  | UpstreamMsg.genericError text => Except.ok (handle_error s text)
  | UpstreamMsg.hubAction action => Except.ok (handle_action s action)
  | UpstreamMsg.hubProperties _ _ => Except.ok s
  | UpstreamMsg.hubAlert _ _ => Except.ok s

/-- Embeds `Hub._notify` after decoding: the correlation step followed by handler
dispatch for one decoded upstream message. -/
def notify (s : HubState) (m : UpstreamMsg) : Except HubError HubState :=
  dispatch (correlate s m) m

/-! ## Synchronous send (`Hub.send`, lines 58-79)

The Python method blocks on `self._sync_replies.get()`; the embedding
splits it at that suspension point. -/

/-- The failure of the `assert not self._sync_request` precondition check
in `Hub.send`. -/
inductive SendErr where
  | pendingAssert
  deriving DecidableEq, Repr

/-- Embeds `Hub.send` up to (and including) the `connection.write` call: for a
`needs_reply` message the assert fires — before anything is written —
when a request is already pending, otherwise the message is recorded as
the pending request and its bytes are written; a fire-and-forget message
is written with no effect on the pending slot. -/
def send_start (s : HubState) (msg : DownstreamMsg) : HubState × Option SendErr :=
  if msg.needs_reply then
    match s.sync_request with
    | some _ => (s, some SendErr.pendingAssert)
    | none =>
      ({ s with sync_request := some msg, writes := s.writes ++ [msg.bytes] }, none)
  else ({ s with writes := s.writes ++ [msg.bytes] }, none)

/-- The rest of `Hub.send`: the blocking `self._sync_replies.get()` plus
the generic-error check.  Returns `none` while the queue is empty (the
caller stays blocked); otherwise consumes the head and either raises
`RuntimeError(resp.message())` (embedded as `Except.error` carrying the
device-reported text) or returns the reply. -/
def send_finish (s : HubState) : Option (HubState × Except String UpstreamMsg) :=
  match s.sync_replies with
  | [] => none
  | r :: rest =>
    match r with
    | UpstreamMsg.genericError text => some ({ s with sync_replies := rest }, Except.error text)
    | _ => some ({ s with sync_replies := rest }, Except.ok r)

/-- Number of pending requests held by a state: the `_sync_request` slot
is a single optional field. -/
def pendingCount (s : HubState) : Nat :=
  match s.sync_request with
  | none => 0
  | some _ => 1

/-- The states a single `Hub` can reach from construction through the
operations of the engine: starting a send, processing a decoded
notification, and completing a blocked send. -/
inductive Reach : HubState → Prop where
  | init : Reach initialState
  | sendStep (s : HubState) (msg : DownstreamMsg) : Reach s → Reach (send_start s msg).1
  | notifyStep (s s' : HubState) (m : UpstreamMsg) :
      Reach s → notify s m = Except.ok s' → Reach s'
  | finishStep (s s' : HubState) (r : Except String UpstreamMsg) :
      Reach s → send_finish s = some (s', r) → Reach s'

/-! ## The MoveHub specialization (`hub.py` lines 169-275) -/

def PORT_A : Nat := 0x00
def PORT_B : Nat := 0x01
def PORT_C : Nat := 0x02
def PORT_D : Nat := 0x03
def PORT_AB : Nat := 0x10
def PORT_LED : Nat := 0x32
def PORT_TILT_SENSOR : Nat := 0x3A
def PORT_CURRENT : Nat := 0x3B
def PORT_VOLTAGE : Nat := 0x3C

/-- The state of a `MoveHub`: the base `Hub` state plus the named shortcut
fields initialized to `None` in `MoveHub.__init__` (lines 205-215). -/
structure MoveHubState where
  base : HubState
  led : Option Peripheral
  current : Option Peripheral
  voltage : Option Peripheral
  motor_A : Option Peripheral
  motor_B : Option Peripheral
  motor_AB : Option Peripheral
  vision_sensor : Option Peripheral
  tilt_sensor : Option Peripheral
  motor_external : Option Peripheral
  port_C : Option Peripheral
  port_D : Option Peripheral

/-- Embeds `MoveHub._handle_device_change` (lines 249-275): run the base handler,
then — only when the event is not a detach — bind the freshly installed
peripheral to the shortcut field of its well-known port, and apply the
two exact-type heuristics (`type(...) == VisionSensor` and
`type(...) == EncodedMotor` away from ports A/B/AB). -/
def move_hub_handle_device_change (s : MoveHubState) (port event : Nat)
    (payload : List Nat) : Except HubError MoveHubState :=
  match handle_device_change s.base port event payload with
  | Except.error e => Except.error e
  | Except.ok b =>
    let s1 : MoveHubState := { s with base := b }
    if event ≠ EVENT_DETACHED then
      match alookup port b.peripherals with
      | none => Except.error (HubError.keyError port)
      | some dev =>
        let s2 :=
          if port = PORT_A then { s1 with motor_A := some dev }
          else if port = PORT_B then { s1 with motor_B := some dev }
          else if port = PORT_AB then { s1 with motor_AB := some dev }
          else if port = PORT_C then { s1 with port_C := some dev }
          else if port = PORT_D then { s1 with port_D := some dev }
          else if port = PORT_LED then { s1 with led := some dev }
          else if port = PORT_TILT_SENSOR then { s1 with tilt_sensor := some dev }
          else if port = PORT_CURRENT then { s1 with current := some dev }
          else if port = PORT_VOLTAGE then { s1 with voltage := some dev }
          else s1
        let s3 :=
          if dev.kind = PeripheralKind.visionSensor then { s2 with vision_sensor := some dev }
          else if dev.kind = PeripheralKind.encodedMotor ∧
              ¬(port = PORT_A ∨ port = PORT_B ∨ port = PORT_AB) then
            { s2 with motor_external := some dev }
          else s2
        Except.ok s3
    else Except.ok s1

/-- The seven builtin devices the default `get_dev_set` closure of
`MoveHub._wait_for_devices` samples (lines 222-223). -/
def default_dev_set (s : MoveHubState) : List (Option Peripheral) :=
  [s.motor_A, s.motor_B, s.motor_AB, s.led, s.tilt_sensor, s.current, s.voltage]

/-- Python's `all(devices)` over a sampled device tuple: every entry set. -/
def devsAll (devices : List (Option Peripheral)) : Bool :=
  devices.all (fun d => d.isSome)

/-- The retry loop of `MoveHub._wait_for_devices` (lines 224-231), fuel
being the number of `range(0, 60)` iterations left and `num` the current
iteration index.  `observe num` is the device tuple `get_dev_set()`
returns on iteration `num` (the notification thread mutates the fields
concurrently, so the sample may change between iterations).  Returns the
number of `time.sleep(0.1)` calls performed and whether every expected
device was seen (`false` means the loop fell through to the
`log.warning` line — the method still returns normally). -/
def wait_loop (observe : Nat → List (Option Peripheral)) : Nat → Nat → Nat × Bool
  | _num, 0 => (0, false)
  | num, fuel + 1 =>
    if devsAll (observe num) then (0, true)
    else
      let r := wait_loop observe (num + 1) fuel
      (r.1 + 1, r.2)

/-- Embeds `MoveHub._wait_for_devices` with the default device set: up to 60
attempts from iteration 0. -/
def wait_for_devices (observe : Nat → List (Option Peripheral)) : Nat × Bool :=
  wait_loop observe 0 60

/-! ## Replay of attachment sequences -/

/-- One attach/detach notification as consumed by the attachment handler:
the three fields of a `MsgHubAttachedIO` that `_handle_device_change`
reads. -/
structure DeviceEvent where
  port : Nat
  event : Nat
  payload : List Nat
  deriving DecidableEq, Repr

/-- Replaying a sequence of attach/detach notifications through
`Hub._handle_device_change`, stopping at the first fatal error. -/
def replay (s : HubState) : List DeviceEvent → Except HubError HubState
  | [] => Except.ok s
  | e :: rest =>
    match handle_device_change s e.port e.event e.payload with
    | Except.error err => Except.error err
    | Except.ok s1 => replay s1 rest

/-- Whether the event is one of the two attach variants. -/
def isAttachEvent (e : DeviceEvent) : Bool :=
  decide (e.event = EVENT_ATTACHED) || decide (e.event = EVENT_ATTACHED_VIRTUAL)

/-- Insert a port into the abstract set of present ports. -/
def addPort (p : Nat) (present : List Nat) : List Nat :=
  if p ∈ present then present else present ++ [p]

/-- Remove a port from the abstract set of present ports. -/
def removePort (p : Nat) : List Nat → List Nat
  | [] => []
  | q :: rest => if q = p then rest else q :: removePort p rest

/-- A sequence of attach/detach notifications is valid from a given set of
present ports when every event is an attach or a detach and every detach
names a port present at that point (the claim's precondition). -/
def validSeq (present : List Nat) : List DeviceEvent → Bool
  | [] => true
  | e :: rest =>
    if e.event = EVENT_DETACHED then
      decide (e.port ∈ present) && validSeq (removePort e.port present) rest
    else
      isAttachEvent e && validSeq (addPort e.port present) rest

/-- The verdict of one event about one port: `some true` when it attaches
the port, `some false` when it detaches it, `none` when it concerns a
different port. -/
def eventOn (p : Nat) (e : DeviceEvent) : Option Bool :=
  if e.port = p then some (isAttachEvent e) else none

/-- The verdict of the last event of the sequence that concerns the port,
if any. -/
def lastStatus (p : Nat) : List DeviceEvent → Option Bool
  | [] => none
  | e :: rest =>
    match lastStatus p rest with
    | some b => some b
    | none => eventOn p e

/-! ## Derived notions and concrete instances used by the statements -/

/-- The peripheral object `_handle_device_change` constructs for a port and
device-type code: the registry-mapped class, or the generic fallback. -/
def attached_peripheral (port dev_type : Nat) : Peripheral :=
  match alookup dev_type PERIPHERAL_TYPES with
  | some k => ⟨k, port, none⟩
  | none => ⟨PeripheralKind.generic, port, none⟩

/-- The hub state after a generic-error notification is processed while a
request is pending: the request slot is cleared, the error is in the
reply queue, and the error handler has logged it. -/
def errNotifyResult (s : HubState) (text : String) : HubState :=
  { s with
    sync_request := none,
    sync_replies := s.sync_replies ++ [UpstreamMsg.genericError text],
    warnings := s.warnings ++ [LogEvent.commandError text] }

/-- The peripherals map of a handler result, when it succeeded. -/
def result_peripherals : Except HubError HubState → Option (List (Nat × Peripheral))
  | Except.ok s => some s.peripherals
  | Except.error _ => none

/-- A concrete synchronous request whose `is_reply` predicate matches
nothing. -/
def reqNoMatch : DownstreamMsg :=
  { needs_reply := true, is_reply := fun _ => false, bytes := [0x0E] }

/-- A concrete hub state in which `reqNoMatch` is pending. -/
def pendingState : HubState := { initialState with sync_request := some reqNoMatch }

/-- A concrete hub state owning a single motor on port 3. -/
def onePeriphState : HubState :=
  { initialState with peripherals := [(3, ⟨PeripheralKind.motor, 3, none⟩)] }

/-- A concrete hub state owning a single motor on port 2, for the
duplicate-attach scenario. -/
def dupState : HubState :=
  { initialState with peripherals := [(2, ⟨PeripheralKind.motor, 2, none⟩)] }

/-- A concrete MoveHub base state owning an encoded motor on port 0. -/
def moveBase : HubState :=
  { initialState with peripherals := [(0, ⟨PeripheralKind.encodedMotor, 0, none⟩)] }

/-- A concrete MoveHub state in which `motor_A` shortcuts to the motor on
port 0. -/
def moveState : MoveHubState :=
  { base := moveBase
    led := none
    current := none
    voltage := none
    motor_A := some ⟨PeripheralKind.encodedMotor, 0, none⟩
    motor_B := none
    motor_AB := none
    vision_sensor := none
    tilt_sensor := none
    motor_external := none
    port_C := none
    port_D := none }

/-- The state `moveState` after the motor on port 0 detaches. -/
def moveDetached : MoveHubState :=
  { moveState with base := { moveBase with peripherals := [] } }

/-- A concrete observation function for the wait loop: all seven builtin
devices appear at iteration 2. -/
def obsW (k : Nat) : List (Option Peripheral) :=
  if k = 2 then
    [some ⟨PeripheralKind.encodedMotor, 0, none⟩, some ⟨PeripheralKind.encodedMotor, 1, none⟩,
     some ⟨PeripheralKind.encodedMotor, 16, none⟩, some ⟨PeripheralKind.ledRGB, 50, none⟩,
     some ⟨PeripheralKind.tiltSensor, 58, none⟩, some ⟨PeripheralKind.currentSensor, 59, none⟩,
     some ⟨PeripheralKind.voltageSensor, 60, none⟩]
  else [none]

/-- A concrete valid attach/attach/detach sequence: attach internal tacho
motors on ports 0 and 1, then detach port 0. -/
def evsReplay : List DeviceEvent :=
  [⟨0, EVENT_ATTACHED, [0x27, 0x00]⟩, ⟨1, EVENT_ATTACHED, [0x27, 0x00]⟩,
   ⟨0, EVENT_DETACHED, []⟩]

/-! ## Lemmas about the association-list operations -/

@[simp] theorem alookup_nil {β : Type} (p : Nat) : alookup (β := β) p [] = none := rfl

@[simp] theorem keys_nil {β : Type} : keys ([] : List (Nat × β)) = [] := rfl

@[simp] theorem keys_cons {β : Type} (q : Nat) (w : β) (rest : List (Nat × β)) :
    keys ((q, w) :: rest) = q :: keys rest := rfl

theorem alookup_ainsert_self {β : Type} (p : Nat) (v : β) (m : List (Nat × β)) :
    alookup p (ainsert p v m) = some v := by
  induction m with
  | nil => simp [ainsert, alookup]
  | cons hd tl ih =>
    obtain ⟨q, w⟩ := hd
    by_cases hq : q = p
    · simp [ainsert, hq, alookup]
    · simp [ainsert, hq, alookup, ih]

theorem alookup_ainsert_ne {β : Type} {p q : Nat} (h : q ≠ p) (v : β) (m : List (Nat × β)) :
    alookup q (ainsert p v m) = alookup q m := by
  induction m with
  | nil => simp [ainsert, alookup, Ne.symm h]
  | cons hd tl ih =>
    obtain ⟨r, w⟩ := hd
    by_cases hr : r = p
    · subst hr
      simp [ainsert, alookup, Ne.symm h]
    · simp [ainsert, hr, alookup, ih]

theorem alookup_aerase_ne {β : Type} {p q : Nat} (h : q ≠ p) (m : List (Nat × β)) :
    alookup q (aerase p m) = alookup q m := by
  induction m with
  | nil => simp [aerase]
  | cons hd tl ih =>
    obtain ⟨r, w⟩ := hd
    by_cases hr : r = p
    · subst hr
      simp [aerase, alookup, Ne.symm h]
    · simp [aerase, hr, alookup, ih]

theorem alookup_eq_none {β : Type} (p : Nat) (m : List (Nat × β)) :
    alookup p m = none ↔ p ∉ keys m := by
  induction m with
  | nil => simp
  | cons hd tl ih =>
    obtain ⟨q, w⟩ := hd
    by_cases hq : q = p
    · subst hq
      simp [alookup]
    · simp [alookup, hq, ih, Ne.symm hq]

theorem alookup_aerase_self {β : Type} (p : Nat) (m : List (Nat × β))
    (hnd : (keys m).Nodup) : alookup p (aerase p m) = none := by
  induction m with
  | nil => simp [aerase]
  | cons hd tl ih =>
    obtain ⟨q, w⟩ := hd
    simp only [keys_cons, List.nodup_cons] at hnd
    by_cases hq : q = p
    · subst hq
      simpa [aerase, alookup_eq_none] using hnd.1
    · simp [aerase, hq, alookup, hq, ih hnd.2]

theorem ainsert_cons_self {β : Type} (p : Nat) (v w : β) (rest : List (Nat × β)) :
    ainsert p v ((p, w) :: rest) = (p, v) :: rest := by
  simp [ainsert]

theorem ainsert_cons_ne {β : Type} {q p : Nat} (h : q ≠ p) (v w : β) (rest : List (Nat × β)) :
    ainsert p v ((q, w) :: rest) = (q, w) :: ainsert p v rest := by
  simp [ainsert, h]

theorem mem_keys_ainsert {β : Type} (x p : Nat) (v : β) (m : List (Nat × β)) :
    x ∈ keys (ainsert p v m) ↔ x = p ∨ x ∈ keys m := by
  induction m with
  | nil => simp [ainsert]
  | cons hd tl ih =>
    obtain ⟨q, w⟩ := hd
    by_cases hq : q = p
    · subst hq
      rw [ainsert_cons_self]
      simp only [keys_cons, List.mem_cons]
      tauto
    · rw [ainsert_cons_ne hq]
      simp only [keys_cons, List.mem_cons, ih]
      tauto

theorem nodup_keys_ainsert {β : Type} (p : Nat) (v : β) (m : List (Nat × β))
    (hnd : (keys m).Nodup) : (keys (ainsert p v m)).Nodup := by
  induction m with
  | nil => simp [ainsert]
  | cons hd tl ih =>
    obtain ⟨q, w⟩ := hd
    simp only [keys_cons, List.nodup_cons] at hnd
    by_cases hq : q = p
    · subst hq
      rw [ainsert_cons_self]
      simp only [keys_cons, List.nodup_cons]
      exact hnd
    · rw [ainsert_cons_ne hq]
      simp only [keys_cons, List.nodup_cons]
      refine ⟨fun hmem => ?_, ih hnd.2⟩
      rcases (mem_keys_ainsert q p v tl).mp hmem with h | h
      · exact hq h
      · exact hnd.1 h

theorem keys_aerase_sublist {β : Type} (p : Nat) (m : List (Nat × β)) :
    (keys (aerase p m)).Sublist (keys m) := by
  induction m with
  | nil => simp [aerase]
  | cons hd tl ih =>
    obtain ⟨q, w⟩ := hd
    by_cases hq : q = p
    · simp only [aerase, if_pos hq, keys_cons]
      exact (List.sublist_cons_self q (keys tl))
    · simp only [aerase, if_neg hq, keys_cons]
      exact ih.cons₂ q

theorem nodup_keys_aerase {β : Type} (p : Nat) (m : List (Nat × β))
    (hnd : (keys m).Nodup) : (keys (aerase p m)).Nodup :=
  hnd.sublist (keys_aerase_sublist p m)

theorem keys_aupdate {β : Type} (p : Nat) (f : β → β) (m : List (Nat × β)) :
    keys (aupdate p f m) = keys m := by
  induction m with
  | nil => simp [aupdate]
  | cons hd tl ih =>
    obtain ⟨q, w⟩ := hd
    by_cases hq : q = p
    · simp [aupdate, hq, ih]
    · simp [aupdate, hq, ih]

theorem alookup_aupdate_self {β : Type} (p : Nat) (f : β → β) (m : List (Nat × β)) :
    alookup p (aupdate p f m) = (alookup p m).map f := by
  induction m with
  | nil => simp [aupdate]
  | cons hd tl ih =>
    obtain ⟨q, w⟩ := hd
    by_cases hq : q = p
    · simp [aupdate, hq, alookup]
    · simp [aupdate, hq, alookup, ih]

theorem alookup_aupdate_ne {β : Type} {p q : Nat} (h : q ≠ p) (f : β → β) (m : List (Nat × β)) :
    alookup q (aupdate p f m) = alookup q m := by
  induction m with
  | nil => simp [aupdate]
  | cons hd tl ih =>
    obtain ⟨r, w⟩ := hd
    by_cases hr : r = p
    · subst hr
      simp [aupdate, alookup, Ne.symm h, ih]
    · by_cases hrq : r = q
      · subst hrq
        simp [aupdate, hr, alookup]
      · simp [aupdate, hr, alookup, hrq, ih]

theorem keys_ainsert_of_mem {β : Type} (p : Nat) (v : β) (m : List (Nat × β))
    (h : p ∈ keys m) : keys (ainsert p v m) = keys m := by
  induction m with
  | nil => simp at h
  | cons hd tl ih =>
    obtain ⟨q, w⟩ := hd
    by_cases hq : q = p
    · subst hq
      simp [ainsert]
    · simp only [keys_cons, List.mem_cons] at h
      rcases h with h | h

      · exact absurd h.symm hq
      · simp [ainsert, hq, ih h]

/-! ## Computation lemmas for `handle_device_change` -/

theorem handle_device_change_detach_absent (s : HubState) (port : Nat) (payload : List Nat)
    (h : alookup port s.peripherals = none) :
    handle_device_change s port EVENT_DETACHED payload =
      Except.error (HubError.keyError port) := by
  simp [handle_device_change, h]

theorem handle_device_change_detach_present (s : HubState) (port : Nat) (payload : List Nat)
    (d : Peripheral) (h : alookup port s.peripherals = some d) :
    handle_device_change s port EVENT_DETACHED payload =
      Except.ok { s with peripherals := aerase port s.peripherals } := by
  simp [handle_device_change, h]

theorem handle_attach_eq_known (s : HubState) (port : Nat) (payload : List Nat)
    (k : PeripheralKind) (hreg : alookup (ushort payload 0) PERIPHERAL_TYPES = some k) :
    handle_device_change s port EVENT_ATTACHED payload =
      Except.ok { s with peripherals := ainsert port ⟨k, port, none⟩ s.peripherals } := by
  simp [handle_device_change, EVENT_ATTACHED, EVENT_DETACHED, EVENT_ATTACHED_VIRTUAL, hreg]

theorem handle_attach_eq_unknown (s : HubState) (port : Nat) (payload : List Nat)
    (hreg : alookup (ushort payload 0) PERIPHERAL_TYPES = none) :
    handle_device_change s port EVENT_ATTACHED payload =
      Except.ok { s with
        peripherals := ainsert port ⟨PeripheralKind.generic, port, none⟩ s.peripherals,
        warnings := s.warnings ++ [LogEvent.unknownPeripheral (ushort payload 0) port] } := by
  simp [handle_device_change, EVENT_ATTACHED, EVENT_DETACHED, EVENT_ATTACHED_VIRTUAL, hreg]

theorem handle_attach_virtual_eq_known (s : HubState) (port : Nat) (payload : List Nat)
    (k : PeripheralKind) (hreg : alookup (ushort payload 0) PERIPHERAL_TYPES = some k) :
    handle_device_change s port EVENT_ATTACHED_VIRTUAL payload =
      Except.ok { s with
        peripherals :=
          aupdate port (set_virtual payload) (ainsert port ⟨k, port, none⟩ s.peripherals) } := by
  simp [handle_device_change, EVENT_ATTACHED, EVENT_DETACHED, EVENT_ATTACHED_VIRTUAL, hreg]

theorem handle_attach_virtual_eq_unknown (s : HubState) (port : Nat) (payload : List Nat)
    (hreg : alookup (ushort payload 0) PERIPHERAL_TYPES = none) :
    handle_device_change s port EVENT_ATTACHED_VIRTUAL payload =
      Except.ok { s with
        peripherals :=
          aupdate port (set_virtual payload)
            (ainsert port ⟨PeripheralKind.generic, port, none⟩ s.peripherals),
        warnings := s.warnings ++ [LogEvent.unknownPeripheral (ushort payload 0) port] } := by
  simp [handle_device_change, EVENT_ATTACHED, EVENT_DETACHED, EVENT_ATTACHED_VIRTUAL, hreg]

theorem handle_device_change_assert (s : HubState) (port event : Nat) (payload : List Nat)
    (h0 : event ≠ EVENT_DETACHED) (h1 : event ≠ EVENT_ATTACHED)
    (h2 : event ≠ EVENT_ATTACHED_VIRTUAL) :
    handle_device_change s port event payload = Except.error HubError.assertionError := by
  simp [handle_device_change, h0, h1, h2]

/-- Every successful attach installs a peripheral at the port, leaves every
other port alone, preserves key uniqueness, and does not touch the sync
machinery. -/
theorem handle_device_change_attach (s : HubState) (port : Nat) (payload : List Nat)
    (event : Nat) (he : event = EVENT_ATTACHED ∨ event = EVENT_ATTACHED_VIRTUAL) :
    ∃ s1 : HubState,
      handle_device_change s port event payload = Except.ok s1 ∧
      (alookup port s1.peripherals).isSome = true ∧
      (∀ q, q ≠ port → alookup q s1.peripherals = alookup q s.peripherals) ∧
      ((keys s.peripherals).Nodup → (keys s1.peripherals).Nodup) := by
  rcases he with he | he
  · subst he
    cases hreg : alookup (ushort payload 0) PERIPHERAL_TYPES with
    | none =>
      refine ⟨_, handle_attach_eq_unknown s port payload hreg, ?_, ?_, ?_⟩
      · simp [alookup_ainsert_self]
      · intro q hq
        simp [alookup_ainsert_ne hq]
      · intro hnd
        exact nodup_keys_ainsert port _ _ hnd
    | some k =>
      refine ⟨_, handle_attach_eq_known s port payload k hreg, ?_, ?_, ?_⟩
      · simp [alookup_ainsert_self]
      · intro q hq
        simp [alookup_ainsert_ne hq]
      · intro hnd
        exact nodup_keys_ainsert port _ _ hnd
  · subst he
    cases hreg : alookup (ushort payload 0) PERIPHERAL_TYPES with
    | none =>
      refine ⟨_, handle_attach_virtual_eq_unknown s port payload hreg, ?_, ?_, ?_⟩
      · simp [alookup_aupdate_self, alookup_ainsert_self]
      · intro q hq
        simp [alookup_aupdate_ne hq, alookup_ainsert_ne hq]
      · intro hnd
        simp only [keys_aupdate]
        exact nodup_keys_ainsert port _ _ hnd
    | some k =>
      refine ⟨_, handle_attach_virtual_eq_known s port payload k hreg, ?_, ?_, ?_⟩
      · simp [alookup_aupdate_self, alookup_ainsert_self]
      · intro q hq
        simp [alookup_aupdate_ne hq, alookup_ainsert_ne hq]
      · intro hnd
        simp only [keys_aupdate]
        exact nodup_keys_ainsert port _ _ hnd

/-- The handler `_handle_device_change` only ever touches `peripherals` and
`warnings`. -/
theorem handle_device_change_frame (s : HubState) (port event : Nat) (payload : List Nat)
    (s1 : HubState) (h : handle_device_change s port event payload = Except.ok s1) :
    s1.sync_request = s.sync_request ∧ s1.sync_replies = s.sync_replies ∧
    s1.writes = s.writes ∧ s1.port_data = s.port_data ∧ s1.connected = s.connected := by
  by_cases h0 : event = EVENT_DETACHED
  · subst h0
    cases hl : alookup port s.peripherals with
    | none => rw [handle_device_change_detach_absent s port payload hl] at h; cases h
    | some d =>
      rw [handle_device_change_detach_present s port payload d hl] at h
      cases h
      simp
  · by_cases h1 : event = EVENT_ATTACHED
    · subst h1
      cases hreg : alookup (ushort payload 0) PERIPHERAL_TYPES with
      | none =>
        rw [handle_attach_eq_unknown s port payload hreg] at h
        cases h
        simp
      | some k =>
        rw [handle_attach_eq_known s port payload k hreg] at h
        cases h
        simp
    · by_cases h2 : event = EVENT_ATTACHED_VIRTUAL
      · subst h2
        cases hreg : alookup (ushort payload 0) PERIPHERAL_TYPES with
        | none =>
          rw [handle_attach_virtual_eq_unknown s port payload hreg] at h
          cases h
          simp
        | some k =>
          rw [handle_attach_virtual_eq_known s port payload k hreg] at h
          cases h
          simp
      · rw [handle_device_change_assert s port event payload h0 h1 h2] at h
        cases h

/-! ## Lemmas about correlation and dispatch -/

theorem handle_sensor_data_frame (s : HubState) (port : Nat) (m : UpstreamMsg) :
    (handle_sensor_data s port m).sync_replies = s.sync_replies ∧
    (handle_sensor_data s port m).sync_request = s.sync_request ∧
    (handle_sensor_data s port m).warnings.length ≥ s.warnings.length := by
  unfold handle_sensor_data
  cases alookup port s.peripherals <;> simp

theorem handle_action_frame (s : HubState) (action : Nat) :
    (handle_action s action).sync_replies = s.sync_replies ∧
    (handle_action s action).sync_request = s.sync_request := by
  unfold handle_action
  split_ifs <;> simp

theorem correlate_of_none (s : HubState) (m : UpstreamMsg) (h : s.sync_request = none) :
    correlate s m = s := by
  simp [correlate, h]

theorem correlate_of_match (s : HubState) (m : UpstreamMsg) (req : DownstreamMsg)
    (h : s.sync_request = some req) (hr : req.is_reply m = true) :
    correlate s m = { s with sync_replies := s.sync_replies ++ [m], sync_request := none } := by
  simp [correlate, h, hr]

theorem correlate_of_nomatch (s : HubState) (m : UpstreamMsg) (req : DownstreamMsg)
    (h : s.sync_request = some req) (hr : req.is_reply m = false) :
    correlate s m = s := by
  simp [correlate, h, hr]

/-- When no request is pending, no handler puts anything into the reply
queue, and the pending slot stays empty. -/
theorem dispatch_of_no_request (s : HubState) (m : UpstreamMsg) (s1 : HubState)
    (h : s.sync_request = none) (hok : dispatch s m = Except.ok s1) :
    s1.sync_replies = s.sync_replies ∧ s1.sync_request = none := by
  cases m with
  | hubAttached port event payload =>
    have hfr := handle_device_change_frame s port event payload s1 hok
    exact ⟨hfr.2.1, hfr.1.trans h⟩
  | portValueSingle port payload =>
    cases hok
    have hfr := handle_sensor_data_frame s port (UpstreamMsg.portValueSingle port payload)
    exact ⟨hfr.1, hfr.2.1.trans h⟩
  | portValueCombined port payload =>
    cases hok
    have hfr := handle_sensor_data_frame s port (UpstreamMsg.portValueCombined port payload)
    exact ⟨hfr.1, hfr.2.1.trans h⟩
  | genericError text =>
    cases hok
    simp [handle_error, h]
  | hubAction action =>
    cases hok
    have hfr := handle_action_frame s action
    exact ⟨hfr.1, hfr.2.trans h⟩
  | hubProperties property payload =>
    cases hok
    exact ⟨rfl, h⟩
  | hubAlert alert payload =>
    cases hok
    exact ⟨rfl, h⟩

/-- Dispatching any message other than a generic error never touches the
reply queue or the pending slot. -/
theorem dispatch_frame_of_not_error (s : HubState) (m : UpstreamMsg) (s1 : HubState)
    (hng : isGenericError m = false) (hok : dispatch s m = Except.ok s1) :
    s1.sync_replies = s.sync_replies ∧ s1.sync_request = s.sync_request := by
  cases m with
  | hubAttached port event payload =>
    have hfr := handle_device_change_frame s port event payload s1 hok
    exact ⟨hfr.2.1, hfr.1⟩
  | portValueSingle port payload =>
    cases hok
    have hfr := handle_sensor_data_frame s port (UpstreamMsg.portValueSingle port payload)
    exact ⟨hfr.1, hfr.2.1⟩
  | portValueCombined port payload =>
    cases hok
    have hfr := handle_sensor_data_frame s port (UpstreamMsg.portValueCombined port payload)
    exact ⟨hfr.1, hfr.2.1⟩
  | genericError text => simp [isGenericError] at hng
  | hubAction action =>
    cases hok
    exact handle_action_frame s action
  | hubProperties property payload =>
    cases hok
    exact ⟨rfl, rfl⟩
  | hubAlert alert payload =>
    cases hok
    exact ⟨rfl, rfl⟩

/-- Dispatching a generic error while a request is pending delivers the
error to the blocked sender and clears the request. -/
theorem dispatch_error_of_request (s : HubState) (text : String) (req : DownstreamMsg)
    (hp : s.sync_request = some req) :
    dispatch s (UpstreamMsg.genericError text) =
      Except.ok { s with
        warnings := s.warnings ++ [LogEvent.commandError text],
        sync_request := none,
        sync_replies := s.sync_replies ++ [UpstreamMsg.genericError text] } := by
  simp [dispatch, handle_error, hp]

/-- Dispatching a generic error with no pending request only logs. -/
theorem dispatch_error_of_no_request (s : HubState) (text : String)
    (h : s.sync_request = none) :
    dispatch s (UpstreamMsg.genericError text) =
      Except.ok { s with warnings := s.warnings ++ [LogEvent.commandError text] } := by
  simp [dispatch, handle_error, h]

/-! ## Claim C2: single outstanding synchronous request -/

/-- C2: for every hub state and every `needs_reply` downstream message, if
a request is already pending then `send` fails on its assertion before
any byte reaches the connection (the state, in particular the write
trace, is untouched); and in every reachable state at most one pending
request exists. -/
theorem send_second_sync_rejected (s : HubState) (msg req : DownstreamMsg)
    (hneeds : msg.needs_reply = true) (hpend : s.sync_request = some req) :
    send_start s msg = (s, some SendErr.pendingAssert) ∧
    (send_start s msg).1.writes = s.writes ∧
    ∀ t : HubState, Reach t → pendingCount t ≤ 1 := by
  have h1 : send_start s msg = (s, some SendErr.pendingAssert) := by
    simp [send_start, hneeds, hpend]
  refine ⟨h1, by rw [h1], fun t _ => ?_⟩
  unfold pendingCount
  cases t.sync_request <;> simp

/-- Witness for C2 at a concrete pending state. -/
theorem send_second_sync_rejected_witness :
    send_start pendingState reqNoMatch = (pendingState, some SendErr.pendingAssert) :=
  (send_second_sync_rejected pendingState reqNoMatch reqNoMatch rfl rfl).1

/-! ## Claim C5: detach behaviour -/

/-- C5: a detach notification for an untracked port is fatal (a
`KeyError`, with no recovery path), while a detach for a tracked port
removes exactly that port from the peripherals map. -/
theorem detach_untracked_fatal (s : HubState) (port : Nat) (payload : List Nat)
    (hnd : (keys s.peripherals).Nodup) :
    (alookup port s.peripherals = none →
      handle_device_change s port EVENT_DETACHED payload =
        Except.error (HubError.keyError port)) ∧
    (∀ d, alookup port s.peripherals = some d →
      handle_device_change s port EVENT_DETACHED payload =
        Except.ok { s with peripherals := aerase port s.peripherals } ∧
      alookup port (aerase port s.peripherals) = none) := by
  constructor
  · intro h
    exact handle_device_change_detach_absent s port payload h
  · intro d h
    exact ⟨handle_device_change_detach_present s port payload d h,
      alookup_aerase_self port s.peripherals hnd⟩

/-- Witness for C5: detaching port 7 of a hub that only owns port 3. -/
theorem detach_untracked_fatal_witness :
    handle_device_change onePeriphState 7 EVENT_DETACHED [] =
      Except.error (HubError.keyError 7) :=
  (detach_untracked_fatal onePeriphState 7 [] (by decide)).1 rfl

/-! ## Claim C6: unknown device type falls back, known type maps -/

/-- C6: an attach with a device-type code missing from `PERIPHERAL_TYPES`
does not fail: the generic fallback peripheral is installed at the port
and a warning is logged; a recognized code installs the registry-mapped
peripheral class with no warning. -/
theorem attach_unknown_fallback (s : HubState) (port : Nat) (payload : List Nat) :
    (alookup (ushort payload 0) PERIPHERAL_TYPES = none →
      handle_device_change s port EVENT_ATTACHED payload =
        Except.ok { s with
          peripherals := ainsert port ⟨PeripheralKind.generic, port, none⟩ s.peripherals,
          warnings := s.warnings ++ [LogEvent.unknownPeripheral (ushort payload 0) port] }) ∧
    (∀ k, alookup (ushort payload 0) PERIPHERAL_TYPES = some k →
      handle_device_change s port EVENT_ATTACHED payload =
        Except.ok { s with peripherals := ainsert port ⟨k, port, none⟩ s.peripherals }) :=
  ⟨fun h => handle_attach_eq_unknown s port payload h,
   fun k h => handle_attach_eq_known s port payload k h⟩

/-- Witness for C6: attaching device type 0x99 (not in the registry) on
port 1 installs the generic fallback. -/
theorem attach_unknown_fallback_witness :
    result_peripherals (handle_device_change initialState 1 EVENT_ATTACHED [0x99, 0x00]) =
      some [(1, ⟨PeripheralKind.generic, 1, none⟩)] := by
  rw [(attach_unknown_fallback initialState 1 [0x99, 0x00]).1 rfl]
  rfl

/-! ## Claim C8: duplicate attach silently overwrites -/

/-- C8: an attach notification for a port already present in the
peripherals map succeeds and silently replaces the stored peripheral with
the newly constructed one; every other port is untouched and the key set
is unchanged (the old entry is dropped, not shadowed). -/
theorem duplicate_attach_overwrites (s : HubState) (port : Nat) (payload : List Nat)
    (old : Peripheral) (hold : alookup port s.peripherals = some old) :
    ∃ s1, handle_device_change s port EVENT_ATTACHED payload = Except.ok s1 ∧
      alookup port s1.peripherals = some (attached_peripheral port (ushort payload 0)) ∧
      (∀ q, q ≠ port → alookup q s1.peripherals = alookup q s.peripherals) ∧
      keys s1.peripherals = keys s.peripherals := by
  have hmem : port ∈ keys s.peripherals := by
    by_contra hmem
    have hn := (alookup_eq_none port s.peripherals).mpr hmem
    rw [hold] at hn
    cases hn
  cases hreg : alookup (ushort payload 0) PERIPHERAL_TYPES with
  | none =>
    refine ⟨_, handle_attach_eq_unknown s port payload hreg, ?_, ?_, ?_⟩
    · simp [alookup_ainsert_self, attached_peripheral, hreg]
    · intro q hq
      simp [alookup_ainsert_ne hq]
    · simpa using keys_ainsert_of_mem port _ s.peripherals hmem
  | some k =>
    refine ⟨_, handle_attach_eq_known s port payload k hreg, ?_, ?_, ?_⟩
    · simp [alookup_ainsert_self, attached_peripheral, hreg]
    · intro q hq
      simp [alookup_ainsert_ne hq]
    · simpa using keys_ainsert_of_mem port _ s.peripherals hmem

/-- Witness for C8: re-attaching port 2 (occupied by a motor) with the
vision-sensor device type succeeds. -/
theorem duplicate_attach_overwrites_witness :
    result_peripherals (handle_device_change dupState 2 EVENT_ATTACHED [0x25, 0x00]) ≠
      none := by
  obtain ⟨s1, h1, -, -, -⟩ :=
    duplicate_attach_overwrites dupState 2 [0x25, 0x00] ⟨PeripheralKind.motor, 2, none⟩ rfl
  rw [h1]
  simp [result_peripherals]

/-! ## Claim C10: at most one put per notification -/

/-- C10: processing one notification places at most one message into the
reply channel — the correlation step clears the pending request before
handler dispatch, so the error handler cannot put a second message — and
the size-1 queue never overfills when the blocked sender is waiting on an
empty queue. -/
theorem single_put_per_notification (s s' : HubState) (m : UpstreamMsg)
    (hok : notify s m = Except.ok s') :
    (s'.sync_replies = s.sync_replies ∨ s'.sync_replies = s.sync_replies ++ [m]) ∧
    s'.sync_replies.length ≤ s.sync_replies.length + 1 ∧
    (s.sync_replies = [] → s'.sync_replies.length ≤ 1) := by
  have hdisj : s'.sync_replies = s.sync_replies ∨ s'.sync_replies = s.sync_replies ++ [m] := by
    unfold notify at hok
    cases hreq : s.sync_request with
    | none =>
      rw [correlate_of_none s m hreq] at hok
      exact Or.inl (dispatch_of_no_request s m s' hreq hok).1
    | some req =>
      by_cases hr : req.is_reply m = true
      · rw [correlate_of_match s m req hreq hr] at hok
        exact Or.inr (dispatch_of_no_request _ m s' rfl hok).1
      · have hrf : req.is_reply m = false := by
          cases hb : req.is_reply m with
          | false => rfl
          | true => exact absurd hb hr
        rw [correlate_of_nomatch s m req hreq hrf] at hok
        cases m with
        | genericError text =>
          rw [dispatch_error_of_request s text req hreq] at hok
          cases hok
          exact Or.inr rfl
        | hubAttached port event payload =>
          exact Or.inl
            (dispatch_frame_of_not_error s (UpstreamMsg.hubAttached port event payload) s' rfl hok).1
        | portValueSingle port payload =>
          exact Or.inl
            (dispatch_frame_of_not_error s (UpstreamMsg.portValueSingle port payload) s' rfl hok).1
        | portValueCombined port payload =>
          exact Or.inl
            (dispatch_frame_of_not_error s (UpstreamMsg.portValueCombined port payload) s' rfl hok).1
        | hubAction action =>
          exact Or.inl
            (dispatch_frame_of_not_error s (UpstreamMsg.hubAction action) s' rfl hok).1
        | hubProperties property payload =>
          exact Or.inl
            (dispatch_frame_of_not_error s (UpstreamMsg.hubProperties property payload) s' rfl hok).1
        | hubAlert alert payload =>
          exact Or.inl
            (dispatch_frame_of_not_error s (UpstreamMsg.hubAlert alert payload) s' rfl hok).1
  refine ⟨hdisj, ?_, ?_⟩
  · rcases hdisj with h | h <;> simp [h]
  · intro hnil
    rcases hdisj with h | h <;> simp [h, hnil]

/-- Witness for C10: a generic error processed by `pendingState`. -/
theorem single_put_per_notification_witness :
    (errNotifyResult pendingState "e").sync_replies.length ≤
      pendingState.sync_replies.length + 1 := by
  exact (single_put_per_notification pendingState (errNotifyResult pendingState "e")
    (UpstreamMsg.genericError "e") rfl).2.1

/-! ## Claim C3 (corrected): reply delivery -/

/-- Counterexample to C3 as stated: with `reqNoMatch` pending — whose
`is_reply` predicate rejects everything — a generic-error notification is
nonetheless delivered to the blocked sender (the reply queue grows by
that message), so delivery is not equivalent to `is_reply` holding. -/
theorem reply_delivery_cex :
    notify pendingState (UpstreamMsg.genericError "boom") =
      Except.ok (errNotifyResult pendingState "boom") ∧
    (errNotifyResult pendingState "boom").sync_replies =
      pendingState.sync_replies ++ [UpstreamMsg.genericError "boom"] ∧
    reqNoMatch.is_reply (UpstreamMsg.genericError "boom") = false :=
  ⟨rfl, rfl, rfl⟩

/-- Helper for the amended C3: on a non-error message that does not match
the pending request, nothing is delivered. -/
theorem reply_delivery_aux (s : HubState) (req : DownstreamMsg) (m : UpstreamMsg)
    (s' : HubState) (hrf : req.is_reply m = false) (hng : isGenericError m = false)
    (hok : dispatch s m = Except.ok s') :
    (s'.sync_replies = s.sync_replies ++ [m] ↔
      (req.is_reply m = true ∨ isGenericError m = true)) ∧
    ∀ text, m = UpstreamMsg.genericError text →
      s'.sync_request = none ∧ s'.warnings = s.warnings ++ [LogEvent.commandError text] := by
  have hfr := dispatch_frame_of_not_error s m s' hng hok
  constructor
  · constructor
    · intro hL
      exfalso
      have hlen := congrArg List.length (hfr.1.symm.trans hL)
      simp at hlen
    · intro hR
      rcases hR with hR | hR
      · rw [hrf] at hR
        cases hR
      · rw [hng] at hR
        cases hR
  · intro text ht
    subst ht
    simp [isGenericError] at hng

/-- C3 (amended): while a request is pending, a processed notification is
delivered to the blocked sender as the reply if and only if `is_reply`
holds of it against the pending request OR it is a generic-error
notification; and an error notification while a request is pending both
completes that request (the pending slot is cleared) and is independently
observed by the registered error handler (the command-error warning is
logged). -/
theorem reply_delivery (s : HubState) (req : DownstreamMsg) (m : UpstreamMsg)
    (s' : HubState) (hpend : s.sync_request = some req)
    (hok : notify s m = Except.ok s') :
    (s'.sync_replies = s.sync_replies ++ [m] ↔
      (req.is_reply m = true ∨ isGenericError m = true)) ∧
    ∀ text, m = UpstreamMsg.genericError text →
      s'.sync_request = none ∧ s'.warnings = s.warnings ++ [LogEvent.commandError text] := by
  unfold notify at hok
  by_cases hr : req.is_reply m = true
  · rw [correlate_of_match s m req hpend hr] at hok
    have hfr := dispatch_of_no_request _ m s' rfl hok
    refine ⟨⟨fun _ => Or.inl hr, fun _ => hfr.1⟩, ?_⟩
    intro text hm
    subst hm
    rw [dispatch_error_of_no_request _ text rfl] at hok
    cases hok
    exact ⟨rfl, rfl⟩
  · have hrf : req.is_reply m = false := by
      cases hb : req.is_reply m with
      | false => rfl
      | true => exact absurd hb hr
    rw [correlate_of_nomatch s m req hpend hrf] at hok
    cases m with
    | genericError text =>
      rw [dispatch_error_of_request s text req hpend] at hok
      cases hok
      refine ⟨⟨fun _ => Or.inr rfl, fun _ => rfl⟩, ?_⟩
      intro t ht
      cases ht
      exact ⟨rfl, rfl⟩
    | hubAttached port event payload => exact reply_delivery_aux s req _ s' hrf rfl hok
    | portValueSingle port payload => exact reply_delivery_aux s req _ s' hrf rfl hok
    | portValueCombined port payload => exact reply_delivery_aux s req _ s' hrf rfl hok
    | hubAction action => exact reply_delivery_aux s req _ s' hrf rfl hok
    | hubProperties property payload => exact reply_delivery_aux s req _ s' hrf rfl hok
    | hubAlert alert payload => exact reply_delivery_aux s req _ s' hrf rfl hok

/-- Witness for the amended C3 at the concrete error scenario. -/
theorem reply_delivery_witness :
    (errNotifyResult pendingState "boom").sync_replies =
        pendingState.sync_replies ++ [UpstreamMsg.genericError "boom"] ↔
      (reqNoMatch.is_reply (UpstreamMsg.genericError "boom") = true ∨
        isGenericError (UpstreamMsg.genericError "boom") = true) :=
  (reply_delivery pendingState reqNoMatch (UpstreamMsg.genericError "boom")
    (errNotifyResult pendingState "boom") rfl rfl).1

/-! ## Claim C4: error reply raises and clears -/

/-- C4: when the reply delivered to a blocked synchronous send is the
generic-error variant, the pending request is cleared, the blocked
`send` raises a command failure carrying the device-reported text, and a
fresh synchronous send is accepted afterwards. -/
theorem error_reply_raises (s : HubState) (req : DownstreamMsg) (text : String)
    (hpend : s.sync_request = some req) (hempty : s.sync_replies = []) :
    notify s (UpstreamMsg.genericError text) = Except.ok (errNotifyResult s text) ∧
    (errNotifyResult s text).sync_request = none ∧
    send_finish (errNotifyResult s text) =
      some ({ errNotifyResult s text with sync_replies := [] }, Except.error text) ∧
    ∀ msg : DownstreamMsg,
      (send_start { errNotifyResult s text with sync_replies := [] } msg).2 = none := by
  refine ⟨?_, rfl, ?_, ?_⟩
  · unfold notify
    by_cases hr : req.is_reply (UpstreamMsg.genericError text) = true
    · rw [correlate_of_match s _ req hpend hr,
        dispatch_error_of_no_request _ text rfl]
      simp [errNotifyResult]
    · have hrf : req.is_reply (UpstreamMsg.genericError text) = false := by
        cases hb : req.is_reply (UpstreamMsg.genericError text) with
        | false => rfl
        | true => exact absurd hb hr
      rw [correlate_of_nomatch s _ req hpend hrf,
        dispatch_error_of_request s text req hpend]
      simp [errNotifyResult]
  · simp [send_finish, errNotifyResult, hempty]
  · intro msg
    cases hmr : msg.needs_reply <;> simp [send_start, hmr, errNotifyResult]

/-- Witness for C4 at the concrete pending state. -/
theorem error_reply_raises_witness :
    send_finish (errNotifyResult pendingState "low power") =
      some ({ errNotifyResult pendingState "low power" with sync_replies := [] },
        Except.error "low power") :=
  (error_reply_raises pendingState reqNoMatch "low power" rfl rfl).2.2.1

/-! ## Claim C7: the device-wait loop is bounded -/

theorem wait_loop_le (observe : Nat → List (Option Peripheral)) (num fuel : Nat) :
    (wait_loop observe num fuel).1 ≤ fuel := by
  induction fuel generalizing num with
  | zero => simp [wait_loop]
  | succ n ih =>
    rw [wait_loop]
    by_cases h : devsAll (observe num) = true
    · simp [h]
    · simp only [h, if_neg]
      simpa using Nat.succ_le_succ (ih (num + 1))

theorem wait_loop_found (observe : Nat → List (Option Peripheral)) (fuel : Nat) :
    ∀ (num k : Nat), k < fuel → devsAll (observe (num + k)) = true →
      (∀ j, j < k → devsAll (observe (num + j)) = false) →
      wait_loop observe num fuel = (k, true) := by
  induction fuel with
  | zero =>
    intro num k hk _ _
    exact absurd hk (Nat.not_lt_zero k)
  | succ n ih =>
    intro num k hk hall hmin
    cases k with
    | zero =>
      rw [wait_loop]
      simpa using hall
    | succ k' =>
      have h0 : devsAll (observe num) = false := by
        simpa using hmin 0 (Nat.succ_pos k')
      rw [wait_loop]
      simp only [h0, Bool.false_eq_true, if_false]
      have hrec : wait_loop observe (num + 1) n = (k', true) := by
        refine ih (num + 1) k' (Nat.lt_of_succ_lt_succ hk) ?_ ?_
        · have : num + 1 + k' = num + (k' + 1) := by omega
          rw [this]
          exact hall
        · intro j hj
          have : num + 1 + j = num + (j + 1) := by omega
          rw [this]
          exact hmin (j + 1) (Nat.succ_lt_succ hj)
      rw [hrec]

theorem wait_loop_exhaust (observe : Nat → List (Option Peripheral)) (fuel : Nat) :
    ∀ num : Nat, (∀ j, j < fuel → devsAll (observe (num + j)) = false) →
      wait_loop observe num fuel = (fuel, false) := by
  induction fuel with
  | zero =>
    intro num _
    rfl
  | succ n ih =>
    intro num h
    have h0 : devsAll (observe num) = false := by simpa using h 0 (Nat.succ_pos n)
    rw [wait_loop]
    simp only [h0, Bool.false_eq_true, if_false]
    have hrec : wait_loop observe (num + 1) n = (n, false) := by
      refine ih (num + 1) ?_
      intro j hj
      have : num + 1 + j = num + (j + 1) := by omega
      rw [this]
      exact h (j + 1) (Nat.succ_lt_succ hj)
    rw [hrec]

/-- C7: the construction-time wait loop always terminates within 60
attempts (a ceiling of 60 sleeps of 0.1 s each, about six seconds); it
returns as soon as all expected named peripherals are observed set, after
exactly as many sleeps as failed earlier attempts; and when the ceiling
is reached it returns normally with the warning outcome — the
constructor does not fail. -/
theorem wait_for_devices_bounded (observe : Nat → List (Option Peripheral)) :
    (wait_for_devices observe).1 ≤ 60 ∧
    (∀ k, k < 60 → devsAll (observe k) = true →
      (∀ j, j < k → devsAll (observe j) = false) →
      wait_for_devices observe = (k, true)) ∧
    ((∀ k, k < 60 → devsAll (observe k) = false) →
      wait_for_devices observe = (60, false)) := by
  refine ⟨wait_loop_le observe 0 60, ?_, ?_⟩
  · intro k hk hall hmin
    have h := wait_loop_found observe 60 0 k hk (by simpa using hall)
      (fun j hj => by simpa using hmin j hj)
    exact h
  · intro h
    exact wait_loop_exhaust observe 60 0 (fun j hj => by simpa using h j hj)

/-- Witness for C7: with the seven devices appearing at iteration 2, the
loop returns after exactly two sleeps. -/
theorem wait_for_devices_bounded_witness : wait_for_devices obsW = (2, true) :=
  (wait_for_devices_bounded obsW).2.1 2 (by decide) (by decide) (by decide)

/-! ## Claim C9: detach leaves the MoveHub shortcut fields alone -/

/-- C9: `MoveHub._handle_device_change` on a detach notification leaves
every named shortcut field exactly as it was — only attach events update
them — while the port itself disappears from the peripherals map, so a
shortcut that pointed at the detached peripheral keeps referencing it. -/
theorem detach_keeps_shortcuts (s : MoveHubState) (port : Nat) (payload : List Nat)
    (t : MoveHubState) (hnd : (keys s.base.peripherals).Nodup)
    (hok : move_hub_handle_device_change s port EVENT_DETACHED payload = Except.ok t) :
    t.motor_A = s.motor_A ∧ t.motor_B = s.motor_B ∧ t.motor_AB = s.motor_AB ∧
    t.led = s.led ∧ t.tilt_sensor = s.tilt_sensor ∧ t.current = s.current ∧
    t.voltage = s.voltage ∧ t.vision_sensor = s.vision_sensor ∧
    t.motor_external = s.motor_external ∧ t.port_C = s.port_C ∧ t.port_D = s.port_D ∧
    alookup port t.base.peripherals = none := by
  unfold move_hub_handle_device_change at hok
  cases hl : alookup port s.base.peripherals with
  | none =>
    rw [handle_device_change_detach_absent s.base port payload hl] at hok
    simp at hok
  | some d =>
    rw [handle_device_change_detach_present s.base port payload d hl] at hok
    simp at hok
    subst hok
    refine ⟨rfl, rfl, rfl, rfl, rfl, rfl, rfl, rfl, rfl, rfl, rfl, ?_⟩
    exact alookup_aerase_self port s.base.peripherals hnd

/-- Witness for C9: detaching the motor on port 0 of `moveState` keeps
`motor_A` pointing at it. -/
theorem detach_keeps_shortcuts_witness : moveDetached.motor_A = moveState.motor_A :=
  (detach_keeps_shortcuts moveState 0 [] moveDetached (by decide) rfl).1

/-! ## Claim C1: replay of attach/detach sequences -/

theorem mem_addPort (q p : Nat) (l : List Nat) : q ∈ addPort p l ↔ q = p ∨ q ∈ l := by
  unfold addPort
  split_ifs with h
  · constructor
    · exact Or.inr
    · rintro (rfl | h2)
      · exact h
      · exact h2
  · simp [List.mem_append, or_comm]

theorem nodup_addPort (p : Nat) (l : List Nat) (h : l.Nodup) : (addPort p l).Nodup := by
  unfold addPort
  split_ifs with hp
  · exact h
  · rw [List.nodup_append]
    refine ⟨h, List.nodup_singleton p, ?_⟩
    intro a ha hb
    simp only [List.mem_singleton] at hb
    subst hb
    exact hp ha

theorem removePort_sublist (p : Nat) (l : List Nat) : (removePort p l).Sublist l := by
  induction l with
  | nil => simp [removePort]
  | cons a rest ih =>
    by_cases hap : a = p
    · simp only [removePort, if_pos hap]
      exact List.sublist_cons_self a rest
    · simp only [removePort, if_neg hap]
      exact ih.cons₂ a

theorem nodup_removePort (p : Nat) (l : List Nat) (h : l.Nodup) : (removePort p l).Nodup :=
  h.sublist (removePort_sublist p l)

theorem mem_removePort (q p : Nat) (l : List Nat) (hnd : l.Nodup) :
    q ∈ removePort p l ↔ q ∈ l ∧ q ≠ p := by
  induction l with
  | nil => simp [removePort]
  | cons a rest ih =>
    simp only [List.nodup_cons] at hnd
    by_cases hap : a = p
    · subst hap
      simp only [removePort, if_pos rfl, List.mem_cons]
      constructor
      · intro hq
        exact ⟨Or.inr hq, fun hqp => hnd.1 (hqp ▸ hq)⟩
      · rintro ⟨hq | hq, hne⟩
        · exact absurd hq hne
        · exact hq
    · simp only [removePort, if_neg hap, List.mem_cons, ih hnd.2]
      constructor
      · rintro (rfl | ⟨hq, hne⟩)
        · exact ⟨Or.inl rfl, fun h => hap h⟩
        · exact ⟨Or.inr hq, hne⟩
      · rintro ⟨rfl | hq, hne⟩
        · exact Or.inl rfl
        · exact Or.inr ⟨hq, hne⟩

/-- Replaying a valid sequence through the attachment handler succeeds,
keeps the keys of the peripherals map unique, and a port is present
afterwards exactly when the last event concerning it attached it (falling
back to its initial presence when no event concerned it). -/
theorem replay_characterization (evs : List DeviceEvent) :
    ∀ (present : List Nat) (s : HubState),
      present.Nodup → (keys s.peripherals).Nodup →
      (∀ p, p ∈ present ↔ (alookup p s.peripherals).isSome = true) →
      validSeq present evs = true →
      ∃ s', replay s evs = Except.ok s' ∧ (keys s'.peripherals).Nodup ∧
        ∀ p, ((alookup p s'.peripherals).isSome = true) ↔
          (match lastStatus p evs with
           | some b => b = true
           | none => (alookup p s.peripherals).isSome = true) := by
  induction evs with
  | nil =>
    intro present s _ hnd _ _
    exact ⟨s, rfl, hnd, fun p => by simp [lastStatus]⟩
  | cons e rest ih =>
    intro present s hpnd hnd hiff hv
    by_cases hdet : e.event = EVENT_DETACHED
    · simp only [validSeq] at hv
      rw [if_pos hdet] at hv
      simp only [Bool.and_eq_true, decide_eq_true_eq] at hv
      obtain ⟨hmem, hv'⟩ := hv
      have hlk : (alookup e.port s.peripherals).isSome = true := (hiff e.port).mp hmem
      obtain ⟨d, hd⟩ : ∃ d, alookup e.port s.peripherals = some d := by
        cases hx : alookup e.port s.peripherals with
        | none => rw [hx] at hlk; cases hlk
        | some d => exact ⟨d, rfl⟩
      have hstep : handle_device_change s e.port e.event e.payload =
          Except.ok { s with peripherals := aerase e.port s.peripherals } := by
        rw [hdet]
        exact handle_device_change_detach_present s e.port e.payload d hd
      have hnd1 : (keys (aerase e.port s.peripherals)).Nodup := nodup_keys_aerase _ _ hnd
      have hpnd1 : (removePort e.port present).Nodup := nodup_removePort _ _ hpnd
      have hiff1 : ∀ p, p ∈ removePort e.port present ↔
          ((alookup p ({ s with peripherals := aerase e.port s.peripherals} : HubState).peripherals).isSome = true) := by
        intro p
        rw [mem_removePort p e.port present hpnd]
        by_cases hpe : p = e.port
        · subst hpe
          simp [alookup_aerase_self e.port s.peripherals hnd]
        · show p ∈ present ∧ p ≠ e.port ↔ (alookup p (aerase e.port s.peripherals)).isSome = true
          rw [alookup_aerase_ne hpe, ← hiff p]
          exact ⟨And.left, fun h1 => ⟨h1, hpe⟩⟩
      obtain ⟨s', hrep, hnd', hchar⟩ :=
        ih (removePort e.port present) _ hpnd1 hnd1 hiff1 hv'
      refine ⟨s', ?_, hnd', ?_⟩
      · rw [replay, hstep]
        exact hrep
      · intro p
        rw [hchar p]
        cases hls : lastStatus p rest with
        | some b => simp [lastStatus, hls]
        | none =>
          simp only [lastStatus, hls]
          by_cases hpe : p = e.port
          · subst hpe
            have hae : isAttachEvent e = false := by
              unfold isAttachEvent
              rw [hdet]
              decide
            simp only [eventOn, if_pos rfl, hae]
            show (alookup e.port (aerase e.port s.peripherals)).isSome = true ↔ (false = true)
            simp [alookup_aerase_self e.port s.peripherals hnd]
          · simp only [eventOn, if_neg (Ne.symm hpe)]
            show (alookup p (aerase e.port s.peripherals)).isSome = true ↔ _
            rw [alookup_aerase_ne hpe]
    · simp only [validSeq] at hv
      rw [if_neg hdet] at hv
      simp only [Bool.and_eq_true] at hv
      obtain ⟨hatt, hv'⟩ := hv
      have he : e.event = EVENT_ATTACHED ∨ e.event = EVENT_ATTACHED_VIRTUAL := by
        simpa [isAttachEvent, Bool.or_eq_true, decide_eq_true_eq] using hatt
      obtain ⟨s1, hstep, hport, hother, hndpres⟩ :=
        handle_device_change_attach s e.port e.payload e.event he
      have hnd1 := hndpres hnd
      have hpnd1 : (addPort e.port present).Nodup := nodup_addPort _ _ hpnd
      have hiff1 : ∀ p, p ∈ addPort e.port present ↔
          (alookup p s1.peripherals).isSome = true := by
        intro p
        rw [mem_addPort]
        by_cases hpe : p = e.port
        · subst hpe
          simp [hport]
        · rw [hother p hpe, ← hiff p]
          constructor
          · rintro (h | h)
            · exact absurd h hpe
            · exact h
          · exact Or.inr
      obtain ⟨s', hrep, hnd', hchar⟩ := ih (addPort e.port present) s1 hpnd1 hnd1 hiff1 hv'
      refine ⟨s', ?_, hnd', ?_⟩
      · rw [replay, hstep]
        exact hrep
      · intro p
        rw [hchar p]
        cases hls : lastStatus p rest with
        | some b => simp [lastStatus, hls]
        | none =>
          simp only [lastStatus, hls]
          by_cases hpe : p = e.port
          · subst hpe
            simp only [eventOn, if_pos rfl, hatt]
            simp [hport]
          · simp only [eventOn, if_neg (Ne.symm hpe)]
            rw [hother p hpe]

/-- C1: replaying any valid sequence of attach/detach notifications (every
detach naming a currently present port) from the initial state leaves the
peripherals map holding exactly the ports whose last event was an attach,
with no duplicate key. -/
theorem attach_detach_replay (evs : List DeviceEvent) (hv : validSeq [] evs = true) :
    ∃ s', replay initialState evs = Except.ok s' ∧
      (keys s'.peripherals).Nodup ∧
      ∀ p, ((alookup p s'.peripherals).isSome = true) ↔ lastStatus p evs = some true := by
  obtain ⟨s', h1, h2, h3⟩ := replay_characterization evs [] initialState List.nodup_nil
    (by simp [initialState]) (fun p => by simp [initialState]) hv
  refine ⟨s', h1, h2, fun p => ?_⟩
  rw [h3 p]
  cases hls : lastStatus p evs with
  | none => simp [initialState]
  | some b => cases b <;> simp

/-- Witness for C1: the attach/attach/detach sequence `evsReplay` replays
without error. -/
theorem attach_detach_replay_witness :
    result_peripherals (replay initialState evsReplay) ≠ none := by
  obtain ⟨s', h1, -, -⟩ := attach_detach_replay evsReplay (by decide)
  rw [h1]
  simp [result_peripherals]

end Pylgbst
